import Mathlib

/-!
Shallow embedding of the payment / order / ticket transaction engine of the
ticket-system backend (Express + Mongoose).  Each definition mirrors one
function of the JavaScript source: the Mongoose session (`withTransaction`)
becomes an `Except`-valued function — an `Except.error` result models a thrown
error inside the session, whose writes are rolled back, so the caller observes
the unchanged input state.  JavaScript numbers are modelled as `Int` (amounts,
counters) or `Nat` (quantities validated positive, timestamps); the Naira
amounts obtained by dividing kobo values by 100 are modelled as `Rat`.
-/

namespace TicketSystem

/-- Transaction status values of the Mongoose transaction schema
(models/Transaction, `status` enum). -/
inductive TxStatus where
  | initiated
  | processing
  | completed
  | failed
  | refunded
  | partially_refunded
  deriving DecidableEq, Repr

/-- Rendering of a status used inside error messages built with template
strings in the source. -/
def statusName : TxStatus → String
  | .initiated => "initiated"
  | .processing => "processing"
  | .completed => "completed"
  | .failed => "failed"
  | .refunded => "refunded"
  | .partially_refunded => "partially_refunded"

/-- The STATE_TRANSITIONS table of services/transactionService.js (lines
12-19): the allowed target states for each source state. -/
def STATE_TRANSITIONS : TxStatus → List TxStatus
  | .initiated => [.processing, .failed]
  | .processing => [.completed, .failed]
  | .completed => [.refunded, .partially_refunded]
  | .failed => [.processing]
  | .refunded => []
  | .partially_refunded => [.refunded]

/-- TransactionService.validateStateTransition: a transition is valid when the
target is listed for the source.  (The `!allowedTransitions` branch of the
source cannot arise here because `TxStatus` is the full enum.) -/
def TransactionService.validateStateTransition (fromState toState : TxStatus) : Bool :=
  (STATE_TRANSITIONS fromState).contains toState

/-- Result of PaystackService.calculateSplit. -/
structure SplitPair where
  organizerAmount : Int
  platformAmount : Int
  deriving DecidableEq, Repr

/-- PaystackService.calculateSplit (services/paystackService.js): organizer
gets the floor of totalAmount * percentage / 100, the platform keeps the
remainder.  The source defaults organizerPercentage to 90; call sites pass 90
explicitly here. -/
def PaystackService.calculateSplit (totalAmount : Int) (organizerPercentage : Int) : SplitPair :=
  let organizerAmount := Int.fdiv (totalAmount * organizerPercentage) 100
  { organizerAmount := organizerAmount, platformAmount := totalAmount - organizerAmount }

/-- JavaScript `x || d` on an optional string: `undefined` and `""` are falsy. -/
def jsOr (x : Option String) (d : String) : String :=
  match x with
  | none => d
  | some v => if v = "" then d else v

/-- JavaScript truthiness of an optional string (`undefined` and `""` falsy). -/
def strTruthy : Option String → Bool
  | none => false
  | some v => v != ""

/-- JavaScript truthiness of an optional number (`undefined` and `0` falsy). -/
def numTruthy : Option Int → Bool
  | none => false
  | some a => a != 0

/-- One element of the `refunds` array of the transaction schema. -/
structure Refund where
  amount : Int
  reason : String
  processedBy : String
  processedAt : Nat
  deriving DecidableEq, Repr

/-- The `splits` subdocument of the transaction schema, with the Naira values
written by completeTransaction. -/
structure TxSplits where
  platformAmount : Rat
  organizerAmount : Rat
  paystackFees : Rat
  organizerSubaccountCode : Option String
  deriving DecidableEq, Repr

/-- The transaction row (models/Transaction), restricted to the fields the
engine reads or writes. -/
structure Transaction where
  idempotencyKey : String
  status : TxStatus
  amount : Int
  totalRefunded : Int
  refunds : List Refund
  retryCount : Int
  maxRetries : Int
  failureReason : Option String
  gatewayReference : String
  gatewayTransactionId : Option String
  processingAt : Option Nat
  completedAt : Option Nat
  failedAt : Option Nat
  splits : TxSplits
  deriving DecidableEq, Repr

/-- The `netAmount` virtual of the transaction schema. -/
def Transaction.netAmount (t : Transaction) : Int := t.amount - t.totalRefunded

/-- The `canRetry` method of the transaction schema. -/
def Transaction.canRetry (t : Transaction) : Bool :=
  t.status == .failed && decide (t.retryCount < t.maxRetries)

/-- The `isRefundable` method of the transaction schema: note it requires
status `completed` (it does not admit `partially_refunded`). -/
def Transaction.isRefundable (t : Transaction) : Bool :=
  t.status == .completed && decide (t.netAmount > 0)

/-- Payment status values of the order schema. -/
inductive PayStatus where
  | pending
  | completed
  | failed
  | refunded
  deriving DecidableEq, Repr

/-- The `splits` subdocument of the order schema. -/
structure OrderSplits where
  platformAmount : Rat
  organizerAmount : Rat
  deriving DecidableEq, Repr

/-- The order row (models/Order), restricted to the fields the engine uses.
`tickets` holds the ids of the minted tickets. -/
structure Order where
  paymentStatus : PayStatus
  quantity : Nat
  unitPrice : Int
  totalAmount : Int
  tickets : List Nat
  paystackReference : String
  paystackTransactionId : Option String
  paystackChannel : Option String
  splits : OrderSplits
  deriving DecidableEq, Repr

/-- Event status values of the event schema. -/
inductive EvStatus where
  | draft
  | published
  | cancelled
  | completed
  deriving DecidableEq, Repr

/-- The event row together with the one ticket tier the purchase under
consideration addresses (`event.ticketTiers.id(tierId)`). -/
structure EventSt where
  status : EvStatus
  tierPrice : Int
  tierQuantity : Int
  tierSoldCount : Int
  tierMaxPerUser : Int
  totalTicketsSold : Int
  totalRevenue : Int
  deriving DecidableEq, Repr

/-- Ticket status values of the ticket schema. -/
inductive TicketStatus where
  | valid
  | used
  | cancelled
  | transferred
  deriving DecidableEq, Repr

/-- The ticket row (models/Ticket), restricted to the fields of the scan and
refund paths. -/
structure Ticket where
  id : Nat
  status : TicketStatus
  qrCode : String
  checkedInAt : Option Nat
  checkedInBy : Option String
  deriving DecidableEq, Repr

/-- The database rows one purchase touches: its transaction, its order, the
event holding the purchased tier, and the ticket collection.  `nextTicketId`
models the minting of fresh ObjectIds. -/
structure PurchaseState where
  tx : Transaction
  order : Order
  event : EventSt
  tickets : List Ticket
  nextTicketId : Nat
  deriving DecidableEq, Repr

/-- Paystack verification payload (webhook `data` / verify `data`): kobo
amounts, optional subaccount. -/
structure VerificationData where
  id : String
  channel : String
  amount : Int
  fees : Int
  gatewayResponse : String
  subaccountCode : Option String
  shareAmount : Int
  deriving DecidableEq, Repr

/-- TransactionService.updateState (services/transactionService.js lines
181-209): validates the transition, stamps the matching timestamp, and saves;
an invalid transition throws before any write. -/
def TransactionService.updateState (t : Transaction) (newState : TxStatus) (now : Nat) :
    Except String Transaction :=
  if ¬ TransactionService.validateStateTransition t.status newState then
    .error ("Invalid state transition: " ++ statusName t.status ++ " -> " ++ statusName newState)
  else
    .ok { t with
      status := newState,
      processingAt := if newState = .processing then some now else t.processingAt,
      completedAt := if newState = .completed then some now else t.completedAt,
      failedAt := if newState = .failed then some now else t.failedAt }

/-- TransactionService.completeTransaction (services/transactionService.js
lines 337-444), executed inside one Mongoose session: validate the transition
to `completed`, mark the order paid, compute splits (adopting the gateway
share when a subaccount is present, else calculateSplit), stamp the
transaction, increment the tier and event counters, and mint `order.quantity`
tickets through the provided ticket generator (`tokenOf` supplies each new
ticket's qrCode, modelling qrService.generateTicketToken on a temporary id).
An `Except.error` models a thrown error: the session aborts and no write
persists.  Note: the source performs no oversell re-check before the
increment at lines 417-423. -/
def TransactionService.completeTransaction (s : PurchaseState) (v : VerificationData)
    (now : Nat) (withTicketGenerator : Bool) (tokenOf : Nat → String) :
    Except String (PurchaseState × List Nat) :=
  let transaction := s.tx
  if ¬ TransactionService.validateStateTransition transaction.status .completed then
    .error ("Cannot complete transaction in " ++ statusName transaction.status ++ " state")
  else
    let paidAmountNaira : Rat := (v.amount : Rat) / 100
    let feesNaira : Rat := (v.fees : Rat) / 100
    let splits : TxSplits :=
      match v.subaccountCode with
      | some code =>
          let platformAmountNaira : Rat := (v.shareAmount : Rat) / 100
          { platformAmount := platformAmountNaira,
            organizerAmount := paidAmountNaira - platformAmountNaira - feesNaira,
            paystackFees := feesNaira,
            organizerSubaccountCode := some code }
      | none =>
          let cs := PaystackService.calculateSplit s.order.totalAmount 90
          { platformAmount := (cs.platformAmount : Rat),
            organizerAmount := (cs.organizerAmount : Rat),
            paystackFees := feesNaira,
            organizerSubaccountCode := none }
    let order1 := { s.order with
      paymentStatus := PayStatus.completed,
      paystackTransactionId := some v.id,
      paystackChannel := some v.channel,
      splits := { platformAmount := splits.platformAmount,
                  organizerAmount := splits.organizerAmount } }
    let tx1 := { transaction with
      status := TxStatus.completed,
      completedAt := some now,
      gatewayTransactionId := some v.id,
      splits := { platformAmount := splits.platformAmount,
                  organizerAmount := splits.organizerAmount,
                  paystackFees := splits.paystackFees,
                  organizerSubaccountCode :=
                    match splits.organizerSubaccountCode with
                    | some c => some c
                    | none => transaction.splits.organizerSubaccountCode } }
    let event1 := { s.event with
      tierSoldCount := s.event.tierSoldCount + (s.order.quantity : Int),
      totalTicketsSold := s.event.totalTicketsSold + (s.order.quantity : Int),
      totalRevenue := s.event.totalRevenue + s.order.totalAmount }
    if withTicketGenerator then
      let ids := (List.range s.order.quantity).map (fun i => s.nextTicketId + i)
      let newTickets : List Ticket := ids.map (fun i =>
        { id := i, status := TicketStatus.valid, qrCode := tokenOf i,
          checkedInAt := none, checkedInBy := none })
      .ok ({ tx := tx1, order := { order1 with tickets := ids }, event := event1,
             tickets := s.tickets ++ newTickets,
             nextTicketId := s.nextTicketId + s.order.quantity }, ids)
    else
      .ok ({ tx := tx1, order := order1, event := event1,
             tickets := s.tickets, nextTicketId := s.nextTicketId }, [])

/-- Failure details passed to TransactionService.failTransaction. -/
structure FailureInfo where
  reason : Option String
  code : Option String
  deriving DecidableEq, Repr

/-- TransactionService.failTransaction (services/transactionService.js lines
456-494): validates the transition to `failed`, stamps the transaction and
marks the associated order failed. -/
def TransactionService.failTransaction (s : PurchaseState) (info : FailureInfo) (now : Nat) :
    Except String PurchaseState :=
  if ¬ TransactionService.validateStateTransition s.tx.status .failed then
    .error ("Cannot fail transaction in " ++ statusName s.tx.status ++ " state")
  else
    .ok { s with
      tx := { s.tx with
        status := TxStatus.failed,
        failedAt := some now,
        failureReason := some (jsOr info.reason "Payment verification failed") },
      order := { s.order with paymentStatus := PayStatus.failed } }

/-- Result of TransactionService.canRefund. -/
inductive RefundCheck where
  | refused (reason : String)
  | allowed (maxRefundable : Int)
  deriving DecidableEq, Repr

/-- TransactionService.canRefund (services/transactionService.js lines
144-172).  The JavaScript `amount && amount > netAmount` guard is modelled
with number truthiness: a supplied 0 is falsy and skips the bound check. -/
def TransactionService.canRefund (t : Transaction) (amount : Option Int) : RefundCheck :=
  if ¬ (t.status = .completed ∨ t.status = .partially_refunded) then
    .refused "Only completed transactions can be refunded"
  else
    let netAmount := t.amount - t.totalRefunded
    if netAmount ≤ 0 then
      .refused "Transaction has already been fully refunded"
    else if numTruthy amount && decide (amount.getD 0 > netAmount) then
      .refused "Refund amount exceeds available balance"
    else
      .allowed netAmount

/-- TransactionService.refundTransaction (services/transactionService.js lines
603-666): check eligibility, append the refund record, add to totalRefunded,
compute the new status from the accumulated total, validate the transition,
and set the order to `refunded` on a full refund.  Ticket rows are not
touched. -/
def TransactionService.refundTransaction (s : PurchaseState) (amount : Option Int)
    (reason : Option String) (processedBy : String) (now : Nat) :
    Except String PurchaseState :=
  match TransactionService.canRefund s.tx amount with
  | .refused r => .error r
  | .allowed maxRefundable =>
    let refundAmount := if numTruthy amount then amount.getD 0 else maxRefundable
    let refunds1 := s.tx.refunds ++
      [{ amount := refundAmount, reason := jsOr reason "Refund requested",
         processedBy := processedBy, processedAt := now }]
    let totalRefunded1 := s.tx.totalRefunded + refundAmount
    let newStatus := if totalRefunded1 ≥ s.tx.amount
      then TxStatus.refunded else TxStatus.partially_refunded
    if ¬ TransactionService.validateStateTransition s.tx.status newStatus then
      .error ("Cannot transition from " ++ statusName s.tx.status ++ " to " ++ statusName newStatus)
    else
      let tx1 := { s.tx with
        refunds := refunds1, totalRefunded := totalRefunded1, status := newStatus }
      if totalRefunded1 ≥ s.tx.amount then
        .ok { s with tx := tx1, order := { s.order with paymentStatus := PayStatus.refunded } }
      else
        .ok { s with tx := tx1 }

/-- TransactionController.refundTransaction (controllers/transactionController.js
lines 268-312, the handler behind POST /api/transactions/:id/refund): gate on
`isRefundable`, default the amount to `netAmount`, bound it by `netAmount`,
append the refund record, and set the status from the amount of THIS refund
(`refundAmount >= transaction.amount`).  It never touches the order, the
event, or any ticket row, and never validates the state transition. -/
def TransactionController.refundTransaction (s : PurchaseState) (amount : Option Int)
    (reason : Option String) (processedBy : String) (now : Nat) :
    Except String PurchaseState :=
  if ¬ s.tx.isRefundable then
    .error "Transaction is not refundable"
  else
    let refundAmount := if numTruthy amount then amount.getD 0 else s.tx.netAmount
    if refundAmount > s.tx.netAmount then
      .error "Refund amount cannot exceed the net amount"
    else
      .ok { s with tx := { s.tx with
        refunds := s.tx.refunds ++
          [{ amount := refundAmount, reason := jsOr reason "Admin refund",
             processedBy := processedBy, processedAt := now }],
        totalRefunded := s.tx.totalRefunded + refundAmount,
        status := if refundAmount ≥ s.tx.amount
          then TxStatus.refunded else TxStatus.partially_refunded } }

/-- Gateway verification result as seen by the verify endpoint
(`paystackService.verifyPayment` response). -/
structure GatewayVerification where
  success : Bool
  status : String
  id : String
  channel : String
  gatewayResponse : Option String
  deriving DecidableEq, Repr

/-- Responses of the verify endpoint (POST /api/tickets/verify). -/
inductive VerifyResponse where
  | orderNotFound
  | alreadyVerified
  | verificationFailed
  | verified (ticketIds : List Nat)
  deriving DecidableEq, Repr

/-- TicketController.verifyPayment (controllers/ticketController.js lines
189-327): if the order is already `completed` return it unchanged; on gateway
failure mark order and transaction `failed` (writing the status directly, with
no state-machine validation); on success mark both `completed` (again written
directly, with no validation), compute splits locally via calculateSplit,
increment the tier and event counters with no oversell re-check, and mint
`order.quantity` tickets whose qrCodes come from `tokenOf` (modelling
qrService.generateTicketToken on a temporary id). -/
def TicketController.verifyPayment (s : PurchaseState) (g : GatewayVerification)
    (now : Nat) (tokenOf : Nat → String) : VerifyResponse × PurchaseState :=
  if s.order.paymentStatus = .completed then
    (.alreadyVerified, s)
  else if ¬ (g.success ∧ g.status = "success") then
    (.verificationFailed,
     { s with
       order := { s.order with paymentStatus := PayStatus.failed },
       tx := { s.tx with
         status := TxStatus.failed,
         failedAt := some now,
         failureReason := some (jsOr g.gatewayResponse "Payment verification failed") } })
  else
    let splits := PaystackService.calculateSplit s.order.totalAmount 90
    let order1 := { s.order with
      paymentStatus := PayStatus.completed,
      paystackTransactionId := some g.id,
      paystackChannel := some g.channel,
      splits := { platformAmount := (splits.platformAmount : Rat),
                  organizerAmount := (splits.organizerAmount : Rat) } }
    let tx1 := { s.tx with
      status := TxStatus.completed,
      completedAt := some now,
      gatewayTransactionId := some g.id,
      splits := { s.tx.splits with
        platformAmount := (splits.platformAmount : Rat),
        organizerAmount := (splits.organizerAmount : Rat) } }
    let event1 := { s.event with
      tierSoldCount := s.event.tierSoldCount + (s.order.quantity : Int),
      totalTicketsSold := s.event.totalTicketsSold + (s.order.quantity : Int),
      totalRevenue := s.event.totalRevenue + s.order.totalAmount }
    let ids := (List.range s.order.quantity).map (fun i => s.nextTicketId + i)
    let newTickets : List Ticket := ids.map (fun i =>
      { id := i, status := TicketStatus.valid, qrCode := tokenOf i,
        checkedInAt := none, checkedInBy := none })
    (.verified ids,
     { tx := tx1, order := { order1 with tickets := ids }, event := event1,
       tickets := s.tickets ++ newTickets,
       nextTicketId := s.nextTicketId + s.order.quantity })

/-- A transaction row of the initiation-time database (the fields the
idempotency path returns). -/
structure TxRow where
  idempotencyKey : String
  status : TxStatus
  amount : Int
  reference : String
  deriving DecidableEq, Repr

/-- An order row created by initializePurchase. -/
structure OrderRow where
  quantity : Int
  unitPrice : Int
  totalAmount : Int
  reference : String
  deriving DecidableEq, Repr

/-- The transaction and order collections seen by initializePurchase. -/
structure InitDb where
  transactions : List TxRow
  orders : List OrderRow
  deriving DecidableEq, Repr

/-- Responses of the purchase endpoint (POST /api/tickets/purchase). -/
inductive InitResponse where
  | idempotentHit (t : TxRow)
  | badQuantity
  | eventNotFound
  | notPurchasable
  | tierNotFound
  | insufficientStock (available : Int)
  | tierLimit
  | initFailed
  | paymentInitialized (reference : String) (amount : Int)
  deriving DecidableEq, Repr

/-- The `isIdempotent` flag of the purchase response: set exactly on the
idempotency-key early return. -/
def InitResponse.isIdempotent : InitResponse → Bool
  | .idempotentHit _ => true
  | _ => false

/-- Request-level inputs of initializePurchase: body fields, header key, the
lookups (event and tier found, the user's existing non-cancelled ticket count
in the tier) and the gateway outcome of `paystackService.initializePayment`. -/
structure InitInput where
  quantity : Int
  idempotencyKey : Option String
  eventFound : Bool
  tierFound : Bool
  existingTickets : Int
  gatewaySuccess : Bool
  reference : String
  deriving DecidableEq, Repr

/-- Validation-and-creation part of initializePurchase (after the idempotency
check): quantity in [1,10], event published, stock, per-user limit, gateway
call, then Order.create and Transaction.create with status `initiated`.  The
third component records whether the payment gateway was called. -/
def TicketController.initializePurchaseMain (db : InitDb) (ev : EventSt) (inp : InitInput) :
    InitResponse × InitDb × Bool :=
  if ¬ (1 ≤ inp.quantity ∧ inp.quantity ≤ 10) then (.badQuantity, db, false)
  else if ¬ inp.eventFound then (.eventNotFound, db, false)
  else if ¬ (ev.status = .published) then (.notPurchasable, db, false)
  else if ¬ inp.tierFound then (.tierNotFound, db, false)
  else
    let available := ev.tierQuantity - ev.tierSoldCount
    if inp.quantity > available then (.insufficientStock available, db, false)
    else if inp.existingTickets + inp.quantity > ev.tierMaxPerUser then (.tierLimit, db, false)
    else if ¬ inp.gatewaySuccess then (.initFailed, db, true)
    else
      let totalAmount := ev.tierPrice * inp.quantity
      let newOrder : OrderRow :=
        { quantity := inp.quantity, unitPrice := ev.tierPrice,
          totalAmount := totalAmount, reference := inp.reference }
      let transactionKey := if strTruthy inp.idempotencyKey
        then inp.idempotencyKey.getD ""
        else "auto_" ++ inp.reference
      let newTx : TxRow :=
        { idempotencyKey := transactionKey, status := TxStatus.initiated,
          amount := totalAmount, reference := inp.reference }
      (.paymentInitialized inp.reference totalAmount,
       { transactions := db.transactions ++ [newTx], orders := db.orders ++ [newOrder] },
       true)

/-- TicketController.initializePurchase (controllers/ticketController.js lines
18-183): when a truthy Idempotency-Key header matches an existing transaction,
return it and its populated order unchanged with `isIdempotent` — no gateway
call, no new rows; otherwise run the validation-and-creation path. -/
def TicketController.initializePurchase (db : InitDb) (ev : EventSt) (inp : InitInput) :
    InitResponse × InitDb × Bool :=
  if strTruthy inp.idempotencyKey then
    match db.transactions.find? (fun t => t.idempotencyKey == inp.idempotencyKey.getD "") with
    | some t => (.idempotentHit t, db, false)
    | none => TicketController.initializePurchaseMain db ev inp
  else TicketController.initializePurchaseMain db ev inp

/-- Results of WebhookService.handleChargeSuccess. -/
inductive ChargeSuccessResult where
  | notFound
  | skipped
  | completedOk (ticketCount : Nat)
  | failedWith (error : String)
  deriving DecidableEq, Repr

/-- WebhookService.handleChargeSuccess (services/webhookService.js lines
98-182): skip when the transaction is already `completed`; otherwise call
TransactionService.completeTransaction with the ticket generator.  A thrown
error is caught (webhooks must return 200), so the state is left as it was
and the result only reports the failure. -/
def WebhookService.handleChargeSuccess (s : PurchaseState) (v : VerificationData)
    (now : Nat) (tokenOf : Nat → String) : ChargeSuccessResult × PurchaseState :=
  if s.tx.status = .completed then
    (.skipped, s)
  else
    match TransactionService.completeTransaction s v now true tokenOf with
    | .ok (s1, ids) => (.completedOk ids.length, s1)
    | .error e => (.failedWith e, s)

/-- WebhookService.validateSignature (services/webhookService.js lines 25-53):
false when the secret key is absent, the signature header is absent or empty,
or the hex HMAC-SHA512 of the payload differs from the header.  The HMAC
itself lives in Node's crypto library and is abstracted as a function
argument. -/
def WebhookService.validateSignature (secretKey : Option String)
    (hmacSha512Hex : String → String → String) (payload : String)
    (signature : Option String) : Bool :=
  match secretKey with
  | none => false
  | some key =>
    match signature with
    | none => false
    | some sig => if sig = "" then false else hmacSha512Hex key payload == sig

/-- HTTP response of the webhook endpoint. -/
structure WebhookHttpResponse where
  status : Nat
  success : Bool
  message : Option String
  deriving DecidableEq, Repr

/-- A webhook request: raw body, signature header, and the `event` field of
the parsed JSON body (`none` models a body without a truthy `event`). -/
structure WebhookRequest where
  rawBody : String
  signature : Option String
  eventType : Option String
  deriving DecidableEq, Repr

/-- WebhookController.handlePaystackWebhook (controllers/webhookController.js
lines 175-227): invalid signature, invalid event format, a processed event,
and a caught exception all answer HTTP 200.  `processOutcome` stands for the
result of `webhookService.processEvent` — `Except.error` models an exception
escaping a handler, absorbed by the surrounding try/catch. -/
def WebhookController.handlePaystackWebhook (secretKey : Option String)
    (hmacSha512Hex : String → String → String) (req : WebhookRequest)
    (processOutcome : Except String Bool) : WebhookHttpResponse :=
  if ¬ WebhookService.validateSignature secretKey hmacSha512Hex req.rawBody req.signature then
    { status := 200, success := false, message := some "Invalid signature" }
  else
    match req.eventType with
    | none => { status := 200, success := false, message := some "Invalid event format" }
    | some t =>
      if t = "" then { status := 200, success := false, message := some "Invalid event format" }
      else
        match processOutcome with
        | .ok _handled => { status := 200, success := true, message := none }
        | .error _ => { status := 200, success := false, message := some "Webhook processing error" }

/-- Scan outcome statuses of the validation controller
(controllers/validationController.js). -/
inductive ScanOutcome where
  | INVALID
  | NOT_FOUND
  | WRONG_EVENT
  | NOT_ASSIGNED
  | ALREADY_USED (checkedInAt : Option Nat)
  | CANCELLED
  | RACE_CONDITION
  | VALID (checkedInAt : Nat)
  deriving DecidableEq, Repr

/-- Whether a scan outcome grants entry. -/
def ScanOutcome.isVALID : ScanOutcome → Bool
  | .VALID _ => true
  | _ => false

/-- The guard conditions of steps 1-4 of scanTicket: token signature
verification, the database lookup, the claimed-event comparison and the
validator assignment check. -/
structure ScanGuards where
  tokenValid : Bool
  ticketFound : Bool
  eventMismatch : Bool
  validatorNotAssigned : Bool
  deriving DecidableEq, Repr

/-- ValidationController.scanTicket (controllers/validationController.js lines
328-449).  `obs` is the ticket row the handler read in step 2 (possibly stale
under concurrency); `cur` is the row at the moment of the atomic
findOneAndUpdate of step 6.  The compare-and-set succeeds only when the
current status is `valid`, in which case the ticket becomes `used` with
check-in stamps; a failed CAS answers RACE_CONDITION. -/
def ValidationController.scanTicket (g : ScanGuards) (obs cur : Ticket)
    (now : Nat) (scanner : String) : ScanOutcome × Ticket :=
  if ¬ g.tokenValid then (.INVALID, cur)
  else if ¬ g.ticketFound then (.NOT_FOUND, cur)
  else if g.eventMismatch then (.WRONG_EVENT, cur)
  else if g.validatorNotAssigned then (.NOT_ASSIGNED, cur)
  else if obs.status = .used then (.ALREADY_USED obs.checkedInAt, cur)
  else if obs.status = .cancelled then (.CANCELLED, cur)
  else if cur.status = .valid then
    (.VALID now,
     { cur with
       status := TicketStatus.used,
       checkedInAt := some now,
       checkedInBy := some scanner })
  else (.RACE_CONDITION, cur)

/-- One concurrent scan request: its guard outcomes, how stale its step-2 read
was (0 = the current row, k = the row k writes ago), and the device's clock
and identity. -/
structure ScanRequest where
  guards : ScanGuards
  stale : Nat
  now : Nat
  scanner : String
  deriving DecidableEq, Repr

/-- Serialized execution of concurrent scans of one ticket: the atomic
compare-and-set of step 6 is the serialization point, so the interleaving is
a sequence of scanTicket steps, each observing some past row (`stale` indexes
the history, newest first) while the CAS sees the current row. -/
def runScans : Ticket → List Ticket → List ScanRequest → List ScanOutcome × Ticket
  | cur, _, [] => ([], cur)
  | cur, past, r :: rest =>
    let step := ValidationController.scanTicket r.guards ((cur :: past).getD r.stale cur)
      cur r.now r.scanner
    (step.1 :: (runScans step.2 (cur :: past) rest).1, (runScans step.2 (cur :: past) rest).2)

/-- Byte sequence of a string as `Buffer.from(s)` produces it.  The ticket
payloads (hex ObjectIds, hex signatures, digits and JSON punctuation) are
ASCII, where the UTF-8 bytes are exactly the character codes; `tokenSafe`
below restricts the statements to that domain. -/
def strBytes (s : String) : List Nat := s.data.map Char.toNat

/-- The base64url alphabet used by `Buffer.toString("base64url")`. -/
def base64Alphabet : List Char :=
  "ABCDEFGHIJKLMNOPQRSTUVWXYZabcdefghijklmnopqrstuvwxyz0123456789-_".data

/-- Character of a six-bit group. -/
def b64Char (n : Nat) : Char := base64Alphabet.getD n 'A'

/-- Index of a base64url character, none for a character off the alphabet. -/
def b64Index (c : Char) : Option Nat := base64Alphabet.findIdx? (fun a => a == c)

/-- Base64url encoding of a byte list, unpadded as Node produces it: chunks of
three bytes become four characters; a trailing chunk of one or two bytes
becomes two or three characters. -/
def base64urlEncodeList : List Nat → List Char
  | [] => []
  | [b1] => [b64Char (b1 / 4), b64Char (b1 % 4 * 16)]
  | [b1, b2] => [b64Char (b1 / 4), b64Char (b1 % 4 * 16 + b2 / 16), b64Char (b2 % 16 * 4)]
  | b1 :: b2 :: b3 :: rest =>
    b64Char (b1 / 4) :: b64Char (b1 % 4 * 16 + b2 / 16) ::
      b64Char (b2 % 16 * 4 + b3 / 64) :: b64Char (b3 % 64) :: base64urlEncodeList rest

/-- Base64url decoding (canonical: padding bits must be zero); none for input
that is not a canonical unpadded base64url string. -/
def base64urlDecodeList : List Char → Option (List Nat)
  | [] => some []
  | [_] => none
  | [c1, c2] => do
    let n1 ← b64Index c1
    let n2 ← b64Index c2
    if n2 % 16 = 0 then some [n1 * 4 + n2 / 16] else none
  | [c1, c2, c3] => do
    let n1 ← b64Index c1
    let n2 ← b64Index c2
    let n3 ← b64Index c3
    if n3 % 4 = 0 then some [n1 * 4 + n2 / 16, n2 % 16 * 16 + n3 / 4] else none
  | c1 :: c2 :: c3 :: c4 :: rest => do
    let n1 ← b64Index c1
    let n2 ← b64Index c2
    let n3 ← b64Index c3
    let n4 ← b64Index c4
    let tail ← base64urlDecodeList rest
    some ((n1 * 4 + n2 / 16) :: (n2 % 16 * 16 + n3 / 4) :: (n3 % 4 * 64 + n4) :: tail)

/-- Decimal digit character, as String(n) renders each digit. -/
def digitChar (d : Nat) : Char := Char.ofNat (48 + d)

/-- Fuel-driven digit rendering (structural recursion so that the kernel can
evaluate it). -/
def natDigitsFuel : Nat → Nat → List Char
  | 0, _ => []
  | fuel + 1, n =>
    if n < 10 then [digitChar n]
    else natDigitsFuel fuel (n / 10) ++ [digitChar (n % 10)]

/-- Decimal rendering of a natural number (the JSON.stringify rendering of the
`iat` timestamp). -/
def natDigits (n : Nat) : List Char := natDigitsFuel (n + 1) n

/-- Numeric value of a digit character. -/
def digitVal (c : Char) : Nat := c.toNat - 48

/-- Value of a digit string. -/
def digitsToNat (cs : List Char) : Nat :=
  cs.foldl (fun acc c => acc * 10 + digitVal c) 0

/-- Strip an expected literal from the front of the input. -/
def stripLit : List Char → List Char → Option (List Char)
  | [], s => some s
  | _ :: _, [] => none
  | p :: ps, c :: cs => if c = p then stripLit ps cs else none

/-- Split a JSON string body at its closing quote: the characters before the
first quote, and the rest after it. -/
def splitAtQuote : List Char → Option (List Char × List Char)
  | [] => none
  | c :: cs =>
    if c = '"' then some ([], cs)
    else
      match splitAtQuote cs with
      | none => none
      | some (a, b) => some (c :: a, b)

/-- Longest digit run at the front of the input, and the rest. -/
def spanDigits : List Char → List Char × List Char
  | [] => ([], [])
  | c :: cs =>
    if c.isDigit then
      let (a, b) := spanDigits cs
      (c :: a, b)
    else ([], c :: cs)

/-- JSON.stringify of the signed payload object, with the stable insertion
order tid, eid, iat of qrService.generateTicketToken. -/
def jsonPayloadString (tid eid : String) (iat : Nat) : String :=
  "\x7b\"tid\":\"" ++ tid ++ "\",\"eid\":\"" ++ eid ++ "\",\"iat\":" ++
    String.mk (natDigits iat) ++ "\x7d"

/-- JSON.stringify of the payload object extended with the signature field
(`{...payload, sig}` keeps the order tid, eid, iat, sig). -/
def jsonTokenString (tid eid : String) (iat : Nat) (sig : String) : String :=
  "\x7b\"tid\":\"" ++ tid ++ "\",\"eid\":\"" ++ eid ++ "\",\"iat\":" ++
    String.mk (natDigits iat) ++ ",\"sig\":\"" ++ sig ++ "\"\x7d"

/-- Literal between the start of the token JSON and the tid value. -/
def litTid : List Char := "\x7b\"tid\":\"".data

/-- Literal between the tid value's closing quote and the eid value. -/
def litEid : List Char := ",\"eid\":\"".data

/-- Literal between the eid value's closing quote and the iat digits. -/
def litIat : List Char := ",\"iat\":".data

/-- Literal between the iat digits and the sig value. -/
def litSig : List Char := ",\"sig\":\"".data

/-- Literal after the sig value's closing quote. -/
def litEnd : List Char := "\x7d".data

/-- Parser for the exact token object shape
`{"tid":"…","eid":"…","iat":N,"sig":"…"}` that generateTicketToken emits;
none on any other input.  (Node's JSON.parse accepts more JSON shapes; every
such token still verifies invalid because its recomputed signature cannot
match, so the valid/invalid verdict modelled here is unchanged.) -/
def parseTokenJson (s : List Char) : Option (String × String × Nat × String) :=
  match stripLit litTid s with
  | none => none
  | some s1 =>
    match splitAtQuote s1 with
    | none => none
    | some (tid, s2) =>
      match stripLit litEid s2 with
      | none => none
      | some s3 =>
        match splitAtQuote s3 with
        | none => none
        | some (eid, s4) =>
          match stripLit litIat s4 with
          | none => none
          | some s5 =>
            let (ds, s6) := spanDigits s5
            if ds = [] then none
            else
              match stripLit litSig s6 with
              | none => none
              | some s7 =>
                match splitAtQuote s7 with
                | none => none
                | some (sig, s8) =>
                  if s8 = litEnd then
                    some (String.mk tid, String.mk eid, digitsToNat ds, String.mk sig)
                  else none

/-- Result of QRService.verifyTicketToken. -/
inductive VerifyTokenResult where
  | ok (ticketId eventId : String) (issuedAt : Nat)
  | err (error : String)
  deriving DecidableEq, Repr

/-- The `valid` flag of the verification result. -/
def VerifyTokenResult.valid : VerifyTokenResult → Bool
  | .ok _ _ _ => true
  | .err _ => false

/-- QRService.generateTicketToken (services/qrService.js lines 168-191):
serialize the payload, sign it with the first 16 hex characters of
HMAC-SHA256 over the canonical JSON, and base64url-encode the JSON of the
payload extended with `sig`.  The HMAC itself lives in Node's crypto library
and is abstracted as the `hmacSha256Hex` argument. -/
def QRService.generateTicketToken (hmacSha256Hex : String → String → String)
    (secretKey ticketId eventId : String) (iat : Nat) : String :=
  let dataString := jsonPayloadString ticketId eventId iat
  let signature := (hmacSha256Hex secretKey dataString).take 16
  String.mk (base64urlEncodeList (strBytes (jsonTokenString ticketId eventId iat signature)))

/-- QRService.verifyTicketToken (services/qrService.js lines 196-226): decode
and parse the token (any failure is the caught "Malformed token" branch),
recompute the signature over the decoded payload without the sig field, and
compare; no database lookup is involved.  The function is total: malformed
input yields `valid=false` rather than an exception. -/
def QRService.verifyTicketToken (hmacSha256Hex : String → String → String)
    (secretKey : String) (token : String) : VerifyTokenResult :=
  match base64urlDecodeList token.data with
  | none => .err "Malformed token"
  | some bytes =>
    match parseTokenJson (bytes.map Char.ofNat) with
    | none => .err "Malformed token"
    | some (tid, eid, iat, sig) =>
      let expectedSig := (hmacSha256Hex secretKey (jsonPayloadString tid eid iat)).take 16
      if sig = expectedSig then .ok tid eid iat
      else .err "Invalid signature - potential fake ticket"

/-- Strings over which the embedding of Buffer/JSON round-trips exactly as
Node does: ASCII characters, no quote, no backslash (hex ObjectIds and hex
signatures satisfy this). -/
def tokenSafe (s : String) : Bool :=
  s.data.all (fun c => decide (c.toNat < 128) && c != '"' && c != '\\')

/-- The allowed-transition relation exactly as the specification lists it
(spec 4.1.1), for comparison with the code's STATE_TRANSITIONS table. -/
def specAllowed : TxStatus → TxStatus → Bool
  | .initiated, .processing => true
  | .initiated, .failed => true
  | .processing, .completed => true
  | .processing, .failed => true
  | .completed, .partially_refunded => true
  | .completed, .refunded => true
  | .partially_refunded, .refunded => true
  | .failed, .processing => true
  | _, _ => false

/-- The refund-accounting invariant of the specification: totalRefunded is the
sum of the refund records, lies in [0, amount], and the refund statuses
characterise it exactly. -/
def RefundInv (t : Transaction) : Prop :=
  t.totalRefunded = (t.refunds.map (fun r => r.amount)).sum ∧
  0 ≤ t.totalRefunded ∧ t.totalRefunded ≤ t.amount ∧
  (t.status = .refunded ↔ t.totalRefunded = t.amount) ∧
  (t.status = .partially_refunded ↔ 0 < t.totalRefunded ∧ t.totalRefunded < t.amount)

/-! Concrete sample rows used to instantiate the theorems. -/

/-- Empty splits subdocument, as freshly created rows carry it. -/
def sampleSplits : TxSplits :=
  { platformAmount := 0, organizerAmount := 0, paystackFees := 0,
    organizerSubaccountCode := none }

/-- A transaction as initializePurchase creates it. -/
def baseTx : Transaction :=
  { idempotencyKey := "key1", status := TxStatus.initiated, amount := 10000,
    totalRefunded := 0, refunds := [], retryCount := 0, maxRetries := 3,
    failureReason := none, gatewayReference := "ref1", gatewayTransactionId := none,
    processingAt := none, completedAt := none, failedAt := none, splits := sampleSplits }

/-- An order of two tickets at 5000 each, freshly created. -/
def baseOrder : Order :=
  { paymentStatus := PayStatus.pending, quantity := 2, unitPrice := 5000,
    totalAmount := 10000, tickets := [], paystackReference := "ref1",
    paystackTransactionId := none, paystackChannel := none,
    splits := { platformAmount := 0, organizerAmount := 0 } }

/-- A published event with a roomy tier. -/
def baseEvent : EventSt :=
  { status := EvStatus.published, tierPrice := 5000, tierQuantity := 100,
    tierSoldCount := 0, tierMaxPerUser := 4, totalTicketsSold := 0, totalRevenue := 0 }

/-- A never-retried purchase right after initializePurchase. -/
def firstAttemptState : PurchaseState :=
  { tx := baseTx, order := baseOrder, event := baseEvent, tickets := [], nextTicketId := 1 }

/-- A valid minted ticket. -/
def ticket1 : Ticket :=
  { id := 1, status := TicketStatus.valid, qrCode := "qr1", checkedInAt := none,
    checkedInBy := none }

/-- A second valid minted ticket. -/
def ticket2 : Ticket :=
  { id := 2, status := TicketStatus.valid, qrCode := "qr2", checkedInAt := none,
    checkedInBy := none }

/-- A used ticket with its check-in stamps. -/
def usedTicket : Ticket :=
  { id := 5, status := TicketStatus.used, qrCode := "qru", checkedInAt := some 11,
    checkedInBy := some "dev1" }

/-- A purchase after a successful completion: transaction and order completed,
counters incremented, two valid tickets minted. -/
def completedState : PurchaseState :=
  { tx := { baseTx with status := TxStatus.completed },
    order := { baseOrder with paymentStatus := PayStatus.completed, tickets := [1, 2] },
    event := { baseEvent with
               tierSoldCount := 2, totalTicketsSold := 2, totalRevenue := 10000 },
    tickets := [ticket1, ticket2], nextTicketId := 3 }

/-- A processing purchase of one ticket whose tier is already sold out
(quantity 1, soldCount 1): the state an oversell race produces. -/
def oversellState : PurchaseState :=
  { tx := { baseTx with status := TxStatus.processing, amount := 5000 },
    order := { baseOrder with quantity := 1, totalAmount := 5000 },
    event := { baseEvent with
               tierQuantity := 1, tierSoldCount := 1, totalTicketsSold := 1,
               totalRevenue := 5000 },
    tickets := [], nextTicketId := 10 }

/-- The purchase after a full service refund of completedState. -/
def refundedFullState : PurchaseState :=
  { completedState with
    tx := { completedState.tx with
      refunds := [{ amount := 10000, reason := "Refund requested", processedBy := "adm",
                    processedAt := 9 }],
      totalRefunded := 10000,
      status := TxStatus.refunded },
    order := { completedState.order with paymentStatus := PayStatus.refunded } }

/-- The purchase after a partial admin refund of 3000 on completedState. -/
def partialRefundState : PurchaseState :=
  { completedState with
    tx := { completedState.tx with
      refunds := [{ amount := 3000, reason := "Admin refund", processedBy := "admin",
                    processedAt := 5 }],
      totalRefunded := 3000,
      status := TxStatus.partially_refunded } }

/-- A successful Paystack verification payload without a subaccount. -/
def sampleVerification : VerificationData :=
  { id := "gw1", channel := "card", amount := 1000000, fees := 0,
    gatewayResponse := "Successful", subaccountCode := none, shareAmount := 0 }

/-- A successful gateway verification as the verify endpoint sees it. -/
def okVerification : GatewayVerification :=
  { success := true, status := "success", id := "gw1", channel := "card",
    gatewayResponse := some "Successful" }

/-- An existing transaction row carrying idempotency key K1. -/
def dbRow : TxRow :=
  { idempotencyKey := "K1", status := TxStatus.initiated, amount := 10000,
    reference := "ref0" }

/-- A database holding the K1 transaction. -/
def sampleDb : InitDb := { transactions := [dbRow], orders := [] }

/-- A purchase request retrying with the same Idempotency-Key K1. -/
def sampleInput : InitInput :=
  { quantity := 2, idempotencyKey := some "K1", eventFound := true, tierFound := true,
    existingTickets := 0, gatewaySuccess := true, reference := "ref9" }

/-- An empty database for a fresh purchase. -/
def emptyDb : InitDb := { transactions := [], orders := [] }

/-- A first purchase request without an Idempotency-Key header. -/
def freshInput : InitInput :=
  { quantity := 2, idempotencyKey := none, eventFound := true, tierFound := true,
    existingTickets := 0, gatewaySuccess := true, reference := "ref7" }

/-- Scan guards with every pre-CAS check passing. -/
def allPassGuards : ScanGuards :=
  { tokenValid := true, ticketFound := true, eventMismatch := false,
    validatorNotAssigned := false }

/-- A constant stand-in for the HMAC used to instantiate the codec theorems. -/
def hmacConst : String → String → String :=
  fun _ _ => "0123456789abcdef0123456789abcdef"

/-! Helper lemmas for the ticket-token codec. -/

theorem string_mk_data (s : String) : String.mk s.data = s := rfl

theorem data_string_mk (l : List Char) : (String.mk l).data = l := rfl

theorem tokenSafe_mem {s : String} (h : tokenSafe s = true) :
    ∀ c ∈ s.data, c.toNat < 128 ∧ c ≠ '"' := by
  intro c hc
  have hall := List.all_eq_true.1 h c hc
  simp only [Bool.and_eq_true, decide_eq_true_eq, bne_iff_ne, ne_eq] at hall
  exact ⟨hall.1.1, hall.1.2⟩

theorem b64Index_b64Char : ∀ n, n < 64 → b64Index (b64Char n) = some n := by decide

theorem base64url_roundtrip :
    ∀ bs : List Nat, (∀ b ∈ bs, b < 256) →
      base64urlDecodeList (base64urlEncodeList bs) = some bs
  | [], _ => by simp [base64urlEncodeList, base64urlDecodeList]
  | [b1], h => by
    have hb1 : b1 < 256 := h b1 (by simp)
    have h1 := b64Index_b64Char (b1 / 4) (by omega)
    have h2 := b64Index_b64Char (b1 % 4 * 16) (by omega)
    simp only [base64urlEncodeList, base64urlDecodeList, h1, h2, Option.bind_eq_bind,
      Option.some_bind]
    rw [if_pos (by omega)]
    congr 2
    omega
  | [b1, b2], h => by
    have hb1 : b1 < 256 := h b1 (by simp)
    have hb2 : b2 < 256 := h b2 (by simp)
    have h1 := b64Index_b64Char (b1 / 4) (by omega)
    have h2 := b64Index_b64Char (b1 % 4 * 16 + b2 / 16) (by omega)
    have h3 := b64Index_b64Char (b2 % 16 * 4) (by omega)
    simp only [base64urlEncodeList, base64urlDecodeList, h1, h2, h3, Option.bind_eq_bind,
      Option.some_bind]
    rw [if_pos (by omega)]
    congr 2
    · omega
    · congr 1
      omega
  | b1 :: b2 :: b3 :: rest, h => by
    have hb1 : b1 < 256 := h b1 (by simp)
    have hb2 : b2 < 256 := h b2 (by simp)
    have hb3 : b3 < 256 := h b3 (by simp)
    have h1 := b64Index_b64Char (b1 / 4) (by omega)
    have h2 := b64Index_b64Char (b1 % 4 * 16 + b2 / 16) (by omega)
    have h3 := b64Index_b64Char (b2 % 16 * 4 + b3 / 64) (by omega)
    have h4 := b64Index_b64Char (b3 % 64) (by omega)
    have ih := base64url_roundtrip rest (fun b hb => h b (by simp [hb]))
    simp only [base64urlEncodeList]
    simp only [base64urlDecodeList, h1, h2, h3, h4, Option.bind_eq_bind, Option.some_bind]
    rw [ih]
    simp only [Option.some_bind]
    congr 2
    · omega
    · congr 1
      · omega
      · congr 1
        omega

theorem stripLit_append : ∀ (p s : List Char), stripLit p (p ++ s) = some s
  | [], _ => rfl
  | c :: cs, s => by simp [stripLit, stripLit_append cs s]

theorem splitAtQuote_append :
    ∀ (a : List Char), (∀ c ∈ a, c ≠ '"') →
      ∀ rest, splitAtQuote (a ++ '"' :: rest) = some (a, rest)
  | [], _, rest => by simp [splitAtQuote]
  | c :: cs, h, rest => by
    have hc : c ≠ '"' := h c (by simp)
    simp [splitAtQuote, hc,
      splitAtQuote_append cs (fun x hx => h x (by simp [hx])) rest]

theorem spanDigits_append :
    ∀ (ds : List Char), (∀ d ∈ ds, d.isDigit = true) →
      ∀ (c : Char), c.isDigit = false → ∀ rest,
        spanDigits (ds ++ c :: rest) = (ds, c :: rest)
  | [], _, c, hc, rest => by simp [spanDigits, hc]
  | d :: ds, h, c, hc, rest => by
    have hd : d.isDigit = true := h d (by simp)
    simp [spanDigits, hd,
      spanDigits_append ds (fun x hx => h x (by simp [hx])) c hc rest]

theorem digitChar_props :
    ∀ d, d < 10 → (digitChar d).isDigit = true ∧ (digitChar d).toNat < 128 ∧
      digitChar d ≠ '"' ∧ digitVal (digitChar d) = d := by decide

theorem natDigitsFuel_irrel :
    ∀ (f1 n f2 : Nat), n < f1 → n < f2 → natDigitsFuel f1 n = natDigitsFuel f2 n := by
  intro f1
  induction f1 with
  | zero => intro n f2 h1 h2; omega
  | succ f ih =>
    intro n f2 h1 h2
    cases f2 with
    | zero => omega
    | succ f2a =>
      simp only [natDigitsFuel]
      by_cases hn : n < 10
      · rw [if_pos hn, if_pos hn]
      · rw [if_neg hn, if_neg hn, ih (n / 10) f2a (by omega) (by omega)]

theorem natDigits_eq (n : Nat) :
    natDigits n = if n < 10 then [digitChar n]
      else natDigits (n / 10) ++ [digitChar (n % 10)] := by
  have hstep : natDigitsFuel (n + 1) n =
      if n < 10 then [digitChar n] else natDigitsFuel n (n / 10) ++ [digitChar (n % 10)] := rfl
  by_cases hn : n < 10
  · rw [if_pos hn]
    unfold natDigits
    rw [hstep, if_pos hn]
  · rw [if_neg hn]
    unfold natDigits
    rw [hstep, if_neg hn,
      natDigitsFuel_irrel n (n / 10) (n / 10 + 1) (by omega) (by omega)]

theorem natDigits_mem (n : Nat) :
    ∀ c ∈ natDigits n, c.isDigit = true ∧ c.toNat < 128 ∧ c ≠ '"' := by
  induction n using Nat.strong_induction_on with
  | _ n ih =>
    rw [natDigits_eq]
    split
    · next h =>
      intro c hc
      simp only [List.mem_singleton] at hc
      subst hc
      exact ⟨(digitChar_props n h).1, (digitChar_props n h).2.1, (digitChar_props n h).2.2.1⟩
    · next h =>
      intro c hc
      rcases List.mem_append.1 hc with h1 | h2
      · exact ih (n / 10) (Nat.div_lt_self (by omega) (by omega)) c h1
      · simp only [List.mem_singleton] at h2
        subst h2
        have hp := digitChar_props (n % 10) (by omega)
        exact ⟨hp.1, hp.2.1, hp.2.2.1⟩

theorem natDigits_ne_nil (n : Nat) : natDigits n ≠ [] := by
  rw [natDigits_eq]
  split <;> simp

theorem natDigits_foldl (n : Nat) :
    ∀ acc, List.foldl (fun a c => a * 10 + digitVal c) acc (natDigits n) =
      acc * 10 ^ (natDigits n).length + n := by
  induction n using Nat.strong_induction_on with
  | _ n ih =>
    intro acc
    rw [natDigits_eq]
    split
    · next h =>
      simp only [List.foldl_cons, List.foldl_nil, List.length_singleton, pow_one,
        (digitChar_props n h).2.2.2]
    · next h =>
      rw [List.foldl_append, ih (n / 10) (Nat.div_lt_self (by omega) (by omega)) acc]
      simp only [List.foldl_cons, List.foldl_nil, List.length_append,
        List.length_singleton, (digitChar_props (n % 10) (by omega)).2.2.2]
      have hmod : n / 10 * 10 + n % 10 = n := by omega
      calc (acc * 10 ^ (natDigits (n / 10)).length + n / 10) * 10 + n % 10
          = acc * (10 ^ (natDigits (n / 10)).length * 10) + (n / 10 * 10 + n % 10) := by ring
        _ = acc * 10 ^ ((natDigits (n / 10)).length + 1) + n := by rw [hmod, pow_succ]

theorem digitsToNat_natDigits (n : Nat) : digitsToNat (natDigits n) = n := by
  unfold digitsToNat
  rw [natDigits_foldl n 0]
  simp

theorem jsonTokenString_data (tid eid sig : String) (iat : Nat) :
    (jsonTokenString tid eid iat sig).data =
      litTid ++ (tid.data ++ ('"' :: (litEid ++ (eid.data ++ ('"' :: (litIat ++
        (natDigits iat ++ (litSig ++ (sig.data ++ ('"' :: litEnd)))))))))) := by
  simp only [jsonTokenString, String.data_append, data_string_mk, List.append_assoc]
  rfl

theorem litTid_chars : ∀ c ∈ litTid, c.toNat < 128 := by decide

theorem litEid_chars : ∀ c ∈ litEid, c.toNat < 128 := by decide

theorem litIat_chars : ∀ c ∈ litIat, c.toNat < 128 := by decide

theorem litSig_chars : ∀ c ∈ litSig, c.toNat < 128 := by decide

theorem litEnd_chars : ∀ c ∈ litEnd, c.toNat < 128 := by decide

theorem jsonTokenString_chars (tid eid sig : String) (iat : Nat)
    (htid : tokenSafe tid = true) (heid : tokenSafe eid = true)
    (hsig : tokenSafe sig = true) :
    ∀ c ∈ (jsonTokenString tid eid iat sig).data, c.toNat < 128 := by
  rw [jsonTokenString_data]
  intro c hc
  simp only [List.mem_append, List.mem_cons] at hc
  rcases hc with h | h | h | h | h | h | h | h | h | h | h | h
  · exact litTid_chars c h
  · exact (tokenSafe_mem htid c h).1
  · subst h; decide
  · exact litEid_chars c h
  · exact (tokenSafe_mem heid c h).1
  · subst h; decide
  · exact litIat_chars c h
  · exact (natDigits_mem iat c h).2.1
  · exact litSig_chars c h
  · exact (tokenSafe_mem hsig c h).1
  · subst h; decide
  · exact litEnd_chars c h

theorem map_ofNat_toNat (l : List Char) : (l.map Char.toNat).map Char.ofNat = l := by
  rw [List.map_map]
  have h : (Char.ofNat ∘ Char.toNat) = id := funext Char.ofNat_toNat
  rw [h, List.map_id]

theorem parseTokenJson_roundtrip (tid eid sig : String) (iat : Nat)
    (htid : tokenSafe tid = true) (heid : tokenSafe eid = true)
    (hsig : tokenSafe sig = true) :
    parseTokenJson (jsonTokenString tid eid iat sig).data = some (tid, eid, iat, sig) := by
  have htid1 : ∀ c ∈ tid.data, c ≠ '"' := fun c hc => (tokenSafe_mem htid c hc).2
  have heid1 : ∀ c ∈ eid.data, c ≠ '"' := fun c hc => (tokenSafe_mem heid c hc).2
  have hsig1 : ∀ c ∈ sig.data, c ≠ '"' := fun c hc => (tokenSafe_mem hsig c hc).2
  have hdig : ∀ d ∈ natDigits iat, d.isDigit = true := fun d hd => (natDigits_mem iat d hd).1
  have hspan : ∀ X, spanDigits (natDigits iat ++ (litSig ++ X)) = (natDigits iat, litSig ++ X) :=
    fun X => spanDigits_append (natDigits iat) hdig ',' (by decide) ("\"sig\":\"".data ++ X)
  rw [jsonTokenString_data]
  simp only [parseTokenJson, stripLit_append, splitAtQuote_append tid.data htid1,
    splitAtQuote_append eid.data heid1, splitAtQuote_append sig.data hsig1, hspan,
    natDigits_ne_nil, digitsToNat_natDigits, string_mk_data]
  simp

/-! Helper lemmas for the gate-scan path. -/

theorem scanTicket_nonvalid (g : ScanGuards) (obs cur : Ticket) (now : Nat) (scanner : String)
    (h : cur.status ≠ .valid) :
    (ValidationController.scanTicket g obs cur now scanner).2 = cur ∧
    ((ValidationController.scanTicket g obs cur now scanner).1).isVALID = false := by
  unfold ValidationController.scanTicket
  repeat' split
  all_goals simp_all [ScanOutcome.isVALID]

theorem scanTicket_valid_step (g : ScanGuards) (obs cur : Ticket) (now : Nat) (scanner : String)
    (h : ((ValidationController.scanTicket g obs cur now scanner).1).isVALID = true) :
    cur.status = .valid ∧
    (ValidationController.scanTicket g obs cur now scanner).2 =
      { cur with status := TicketStatus.used, checkedInAt := some now,
                 checkedInBy := some scanner } := by
  unfold ValidationController.scanTicket at h ⊢
  repeat' split at h
  all_goals simp_all [ScanOutcome.isVALID]

theorem runScans_cons (cur : Ticket) (past : List Ticket) (r : ScanRequest)
    (rest : List ScanRequest) :
    runScans cur past (r :: rest) =
      ((ValidationController.scanTicket r.guards ((cur :: past).getD r.stale cur)
          cur r.now r.scanner).1 ::
        (runScans (ValidationController.scanTicket r.guards ((cur :: past).getD r.stale cur)
          cur r.now r.scanner).2 (cur :: past) rest).1,
       (runScans (ValidationController.scanTicket r.guards ((cur :: past).getD r.stale cur)
          cur r.now r.scanner).2 (cur :: past) rest).2) := rfl

theorem runScans_nonvalid (cur : Ticket) (h : cur.status ≠ .valid) :
    ∀ (reqs : List ScanRequest) (past : List Ticket),
      (runScans cur past reqs).1.countP ScanOutcome.isVALID = 0 ∧
      (runScans cur past reqs).2 = cur := by
  intro reqs
  induction reqs with
  | nil => intro past; simp [runScans]
  | cons r rest ih =>
    intro past
    have hstep := scanTicket_nonvalid r.guards ((cur :: past).getD r.stale cur) cur
      r.now r.scanner h
    rw [runScans_cons, List.countP_cons]
    rw [hstep.1]
    have hrest := ih (cur :: past)
    rw [hrest.1, hrest.2, if_neg]
    · exact ⟨rfl, rfl⟩
    · exact (by simpa using hstep.2)

theorem runScans_count_le_one :
    ∀ (reqs : List ScanRequest) (cur : Ticket) (past : List Ticket),
      (runScans cur past reqs).1.countP ScanOutcome.isVALID ≤ 1 := by
  intro reqs
  induction reqs with
  | nil => intro cur past; simp [runScans]
  | cons r rest ih =>
    intro cur past
    rw [runScans_cons, List.countP_cons]
    by_cases hv : ((ValidationController.scanTicket r.guards ((cur :: past).getD r.stale cur)
        cur r.now r.scanner).1).isVALID = true
    · have hstep := scanTicket_valid_step r.guards ((cur :: past).getD r.stale cur) cur
        r.now r.scanner hv
      have hnext : (ValidationController.scanTicket r.guards ((cur :: past).getD r.stale cur)
          cur r.now r.scanner).2.status ≠ TicketStatus.valid := by
        rw [hstep.2]
        simp
      have h0 := runScans_nonvalid _ hnext rest (cur :: past)
      rw [h0.1, if_pos hv]
    · rw [if_neg hv]
      have := ih (ValidationController.scanTicket r.guards ((cur :: past).getD r.stale cur)
        cur r.now r.scanner).2 (cur :: past)
      omega

/-! Helper lemmas for the refund paths. -/

theorem isRefundable_spec {t : Transaction} (h : t.isRefundable = true) :
    t.status = .completed ∧ 0 < t.amount - t.totalRefunded := by
  unfold Transaction.isRefundable Transaction.netAmount at h
  simp only [Bool.and_eq_true, beq_iff_eq, decide_eq_true_eq] at h
  exact ⟨h.1, by omega⟩

theorem canRefund_allowed {t : Transaction} {amount : Option Int} {mr : Int}
    (h : TransactionService.canRefund t amount = .allowed mr) :
    (t.status = .completed ∨ t.status = .partially_refunded) ∧
    0 < t.amount - t.totalRefunded ∧ mr = t.amount - t.totalRefunded ∧
    (∀ a, amount = some a → a ≠ 0 → a ≤ t.amount - t.totalRefunded) := by
  unfold TransactionService.canRefund at h
  dsimp only at h
  split at h
  · exact absurd h (by simp)
  next hstat =>
    split at h
    · exact absurd h (by simp)
    next hnet =>
      split at h
      · exact absurd h (by simp)
      next hguard =>
        simp only [RefundCheck.allowed.injEq] at h
        refine ⟨not_not.1 hstat, by omega, h.symm, ?_⟩
        intro a ha ha0
        by_contra hgt
        apply hguard
        rw [ha]
        simp only [numTruthy, bne_iff_ne, ne_eq, Option.getD_some, Bool.and_eq_true,
          decide_eq_true_eq]
        exact ⟨by simpa using ha0, by omega⟩

theorem refundInv_completed {t : Transaction} (hinv : RefundInv t)
    (h : t.status = .completed) : t.totalRefunded = 0 := by
  obtain ⟨-, h2, h3, h4, h5⟩ := hinv
  have hne : t.totalRefunded ≠ t.amount := by
    intro he
    have hr := h4.mpr he
    rw [h] at hr
    exact absurd hr (by decide)
  have hnp : ¬(0 < t.totalRefunded ∧ t.totalRefunded < t.amount) := by
    intro hc
    have hr := h5.mpr hc
    rw [h] at hr
    exact absurd hr (by decide)
  omega

theorem refundInv_update (t : Transaction) (ra : Int) (reason pby : String) (now : Nat)
    (hsum : t.totalRefunded = (t.refunds.map (fun r => r.amount)).sum)
    (h0 : 0 ≤ t.totalRefunded) (hra : 0 < ra) (hle : t.totalRefunded + ra ≤ t.amount)
    (st : TxStatus)
    (hst : st = if t.totalRefunded + ra ≥ t.amount then TxStatus.refunded
      else TxStatus.partially_refunded) :
    RefundInv { t with
      refunds := t.refunds ++
        [{ amount := ra, reason := reason, processedBy := pby, processedAt := now }],
      totalRefunded := t.totalRefunded + ra,
      status := st } := by
  subst hst
  unfold RefundInv
  dsimp only
  refine ⟨?_, by omega, by omega, ?_, ?_⟩
  · simp only [List.map_append, List.map_cons, List.map_nil, List.sum_append,
      List.sum_cons, List.sum_nil]
    omega
  · by_cases hge : t.totalRefunded + ra ≥ t.amount
    · rw [if_pos hge]
      simp only [true_iff]
      omega
    · rw [if_neg hge]
      constructor
      · intro hc
        exact absurd hc (by decide)
      · intro hc
        omega
  · by_cases hge : t.totalRefunded + ra ≥ t.amount
    · rw [if_pos hge]
      constructor
      · intro hc
        exact absurd hc (by decide)
      · intro hc
        omega
    · rw [if_neg hge]
      simp only [true_iff]
      omega

/-! Claim theorems. -/

/-- C1: for every purchase whose transaction is already `completed` (and whose
order is correspondingly `completed`, as every completion leaves it), a
further Complete invocation from the verifier endpoint returns the existing
order unchanged (alreadyVerified) and one from a charge.success webhook
returns the skip acknowledgement; in both cases the state — tickets, tier
soldCount, event counters, everything — is exactly the input state, so no
tickets are created and no counter is incremented again. -/
theorem complete_idempotent (s : PurchaseState) (g : GatewayVerification)
    (v : VerificationData) (now : Nat) (tokenOf : Nat → String)
    (htx : s.tx.status = .completed) (hord : s.order.paymentStatus = .completed) :
    TicketController.verifyPayment s g now tokenOf = (.alreadyVerified, s) ∧
    WebhookService.handleChargeSuccess s v now tokenOf = (.skipped, s) := by
  constructor
  · simp [TicketController.verifyPayment, hord]
  · simp [WebhookService.handleChargeSuccess, htx]

theorem complete_idempotent_witness :
    TicketController.verifyPayment completedState okVerification 7 (fun _ => "") =
      (.alreadyVerified, completedState) ∧
    WebhookService.handleChargeSuccess completedState sampleVerification 7 (fun _ => "") =
      (.skipped, completedState) :=
  complete_idempotent completedState okVerification sampleVerification 7 (fun _ => "") rfl rfl

/-- C3: an Initiate call whose truthy idempotency key matches an existing
transaction returns that transaction (with its populated order data)
unchanged, leaves the database exactly as it was (no new Order, Transaction
or Ticket rows), performs no gateway call (third component false), and the
response carries isIdempotent=true. -/
theorem initiate_idempotent (db : InitDb) (ev : EventSt) (inp : InitInput) (t : TxRow)
    (hkey : strTruthy inp.idempotencyKey = true)
    (hfind : db.transactions.find?
      (fun r => r.idempotencyKey == inp.idempotencyKey.getD "") = some t) :
    TicketController.initializePurchase db ev inp = (.idempotentHit t, db, false) ∧
    (InitResponse.idempotentHit t).isIdempotent = true := by
  constructor
  · simp [TicketController.initializePurchase, hkey, hfind]
  · rfl

theorem initiate_idempotent_witness :
    TicketController.initializePurchase sampleDb baseEvent sampleInput =
      (.idempotentHit dbRow, sampleDb, false) ∧
    (InitResponse.idempotentHit dbRow).isIdempotent = true :=
  initiate_idempotent sampleDb baseEvent sampleInput dbRow rfl rfl

/-- C9: the webhook endpoint answers HTTP 200 on every input — missing
secret, missing or mismatched signature (with body success=false, message
"Invalid signature"), malformed event, and an exception escaping a handler
(the Except.error outcome) included. -/
theorem webhook_always_200 (secretKey : Option String)
    (hmac : String → String → String) (req : WebhookRequest)
    (outcome : Except String Bool) :
    (WebhookController.handlePaystackWebhook secretKey hmac req outcome).status = 200 ∧
    (WebhookService.validateSignature secretKey hmac req.rawBody req.signature = false →
      WebhookController.handlePaystackWebhook secretKey hmac req outcome =
        { status := 200, success := false, message := some "Invalid signature" }) := by
  constructor
  · unfold WebhookController.handlePaystackWebhook
    split
    · rfl
    · cases req.eventType with
      | none => rfl
      | some t =>
        dsimp only
        split
        · rfl
        · cases outcome <;> rfl
  · intro h
    simp [WebhookController.handlePaystackWebhook, h]

theorem webhook_always_200_witness :
    (WebhookController.handlePaystackWebhook none hmacConst
      { rawBody := "x", signature := none, eventType := some "charge.success" }
      (.error "boom")).status = 200 ∧
    WebhookController.handlePaystackWebhook none hmacConst
      { rawBody := "x", signature := none, eventType := some "charge.success" }
      (.error "boom") =
      { status := 200, success := false, message := some "Invalid signature" } :=
  ⟨(webhook_always_200 none hmacConst
      { rawBody := "x", signature := none, eventType := some "charge.success" }
      (.error "boom")).1,
   (webhook_always_200 none hmacConst
      { rawBody := "x", signature := none, eventType := some "charge.success" }
      (.error "boom")).2 rfl⟩

/-- C4 counterexample: the verify endpoint moves an `initiated` transaction
directly to `completed` with a successful gateway result — a (state, target)
pair outside the allowed relation, performed with writes and no
invalid-transition error (validateStateTransition rejects exactly this
pair). -/
theorem verify_bypasses_state_machine :
    (TicketController.verifyPayment firstAttemptState okVerification 5 (fun _ => "qr")).2.tx.status
      = TxStatus.completed ∧
    firstAttemptState.tx.status = TxStatus.initiated ∧
    TransactionService.validateStateTransition TxStatus.initiated TxStatus.completed = false := by
  exact ⟨rfl, rfl, rfl⟩

/-- C4 amended: the service layer does enforce state-machine closure — its
validateStateTransition table agrees with the specification's relation on
every pair, updateState answers an invalid-transition error (and performs no
write, the Except.error carrying no new row) on every pair outside it, and
refunded is terminal; the verifier endpoint however bypasses this validation
(see the counterexample). -/
theorem state_machine_closure :
    (∀ a b, TransactionService.validateStateTransition a b = specAllowed a b) ∧
    (∀ (t : Transaction) (target : TxStatus) (now : Nat),
      TransactionService.validateStateTransition t.status target = false →
      TransactionService.updateState t target now =
        .error ("Invalid state transition: " ++ statusName t.status ++ " -> " ++
          statusName target)) ∧
    (∀ b, TransactionService.validateStateTransition TxStatus.refunded b = false) := by
  refine ⟨by intro a b; cases a <;> cases b <;> rfl, ?_, by intro b; cases b <;> rfl⟩
  intro t target now h
  simp [TransactionService.updateState, h]

theorem state_machine_closure_witness :
    TransactionService.validateStateTransition TxStatus.completed TxStatus.refunded =
      specAllowed TxStatus.completed TxStatus.refunded ∧
    TransactionService.updateState baseTx TxStatus.refunded 3 =
      .error ("Invalid state transition: " ++ statusName baseTx.status ++ " -> " ++
        statusName TxStatus.refunded) ∧
    TransactionService.validateStateTransition TxStatus.refunded TxStatus.processing = false :=
  ⟨state_machine_closure.1 TxStatus.completed TxStatus.refunded,
   state_machine_closure.2.1 baseTx TxStatus.refunded 3 (by decide),
   state_machine_closure.2.2 TxStatus.processing⟩

/-- C2 counterexample: completing a one-ticket order on a tier with quantity 1
and soldCount 1 succeeds — the engine performs no oversell re-check: the
transaction ends `completed` (not failed with "oversold at completion"), no
failure reason is written, and soldCount becomes 2 > quantity 1. -/
theorem complete_oversell_unchecked :
    (TransactionService.completeTransaction oversellState sampleVerification 20 true
        (fun _ => "qr")).map
      (fun p => (p.1.event.tierSoldCount, p.1.event.tierQuantity, p.1.tx.status,
        p.1.tx.failureReason))
      = .ok (2, 1, TxStatus.completed, none) ∧
    ¬ ((2 : Int) ≤ (1 : Int)) := by
  exact ⟨rfl, by decide⟩

/-- C2 amended: completeTransaction performs no oversell re-check at all —
whenever the state transition to `completed` is valid it succeeds and
increments tier.soldCount and event.totalTicketsSold by order.quantity
unconditionally, never transitioning to failed and never writing an
"oversold at completion" reason; consequently 0 ≤ soldCount ≤ quantity is
not re-established at completion. -/
theorem complete_no_oversell_check (s : PurchaseState) (v : VerificationData)
    (now : Nat) (gen : Bool) (tokenOf : Nat → String)
    (h : TransactionService.validateStateTransition s.tx.status TxStatus.completed = true) :
    ∃ s1 ids, TransactionService.completeTransaction s v now gen tokenOf = .ok (s1, ids) ∧
      s1.event.tierSoldCount = s.event.tierSoldCount + (s.order.quantity : Int) ∧
      s1.event.totalTicketsSold = s.event.totalTicketsSold + (s.order.quantity : Int) ∧
      s1.tx.status = TxStatus.completed ∧
      s1.tx.failureReason = s.tx.failureReason := by
  unfold TransactionService.completeTransaction
  rw [if_neg (fun hc => hc h)]
  by_cases hgen : gen = true
  · subst hgen
    rw [if_pos rfl]
    exact ⟨_, _, rfl, rfl, rfl, rfl, rfl⟩
  · simp only [Bool.not_eq_true] at hgen
    subst hgen
    rw [if_neg (by simp)]
    exact ⟨_, _, rfl, rfl, rfl, rfl, rfl⟩

theorem complete_no_oversell_check_witness :
    ∃ s1 ids, TransactionService.completeTransaction oversellState sampleVerification 20 false
        (fun _ => "qr") = .ok (s1, ids) ∧
      s1.event.tierSoldCount = oversellState.event.tierSoldCount +
        (oversellState.order.quantity : Int) ∧
      s1.event.totalTicketsSold = oversellState.event.totalTicketsSold +
        (oversellState.order.quantity : Int) ∧
      s1.tx.status = TxStatus.completed ∧
      s1.tx.failureReason = oversellState.tx.failureReason :=
  complete_no_oversell_check oversellState sampleVerification 20 false (fun _ => "qr") rfl

/-- C10: a transaction created by initializePurchase starts in status
`initiated`; the service-level completeTransaction rejects the transition
initiated→completed with a thrown error (the aborted session leaving every
row unchanged), and the webhook charge.success path therefore reports a
failure with the state returned exactly as it was — the webhook can never
complete a never-retried first-attempt purchase through this service. -/
theorem webhook_cannot_complete_first_attempt :
    (∀ db ev inp ref amt db1 called,
      TicketController.initializePurchase db ev inp =
        (.paymentInitialized ref amt, db1, called) →
      ∃ trow, db1.transactions = db.transactions ++ [trow] ∧
        trow.status = TxStatus.initiated) ∧
    (∀ (s : PurchaseState) (v : VerificationData) (now : Nat) (gen : Bool)
        (tokenOf : Nat → String), s.tx.status = TxStatus.initiated →
      TransactionService.completeTransaction s v now gen tokenOf =
        .error "Cannot complete transaction in initiated state") ∧
    (∀ (s : PurchaseState) (v : VerificationData) (now : Nat) (tokenOf : Nat → String),
      s.tx.status = TxStatus.initiated →
      WebhookService.handleChargeSuccess s v now tokenOf =
        (.failedWith "Cannot complete transaction in initiated state", s)) := by
  have hmain : ∀ db ev inp ref amt db1 called,
      TicketController.initializePurchaseMain db ev inp =
        (.paymentInitialized ref amt, db1, called) →
      ∃ trow, db1.transactions = db.transactions ++ [trow] ∧
        trow.status = TxStatus.initiated := by
    intro db ev inp ref amt db1 called h
    unfold TicketController.initializePurchaseMain at h
    dsimp only at h
    repeat' split at h
    any_goals (exfalso; simp at h; done)
    all_goals (simp only [Prod.mk.injEq] at h; rw [← h.2.1]; exact ⟨_, rfl, rfl⟩)
  have hcomplete : ∀ (s : PurchaseState) (v : VerificationData) (now : Nat) (gen : Bool)
      (tokenOf : Nat → String), s.tx.status = TxStatus.initiated →
      TransactionService.completeTransaction s v now gen tokenOf =
        .error "Cannot complete transaction in initiated state" := by
    intro s v now gen tokenOf h
    unfold TransactionService.completeTransaction
    rw [if_pos]
    · rw [h]
      rfl
    · rw [h]
      decide
  refine ⟨?_, hcomplete, ?_⟩
  · intro db ev inp ref amt db1 called h
    unfold TicketController.initializePurchase at h
    split at h
    · split at h
      · simp at h
      · exact hmain db ev inp ref amt db1 called h
    · exact hmain db ev inp ref amt db1 called h
  · intro s v now tokenOf h
    unfold WebhookService.handleChargeSuccess
    rw [if_neg (by rw [h]; decide)]
    rw [hcomplete s v now true tokenOf h]

theorem webhook_cannot_complete_first_attempt_witness :
    (∃ trow,
      ({ transactions :=
           emptyDb.transactions ++
             [{ idempotencyKey := "auto_ref7", status := TxStatus.initiated,
                amount := 10000, reference := "ref7" }],
         orders :=
           emptyDb.orders ++
             [{ quantity := 2, unitPrice := 5000, totalAmount := 10000,
                reference := "ref7" }] } : InitDb).transactions =
        emptyDb.transactions ++ [trow] ∧ trow.status = TxStatus.initiated) ∧
    TransactionService.completeTransaction firstAttemptState sampleVerification 9 true
        (fun _ => "qr") = .error "Cannot complete transaction in initiated state" ∧
    WebhookService.handleChargeSuccess firstAttemptState sampleVerification 9 (fun _ => "qr") =
      (.failedWith "Cannot complete transaction in initiated state", firstAttemptState) :=
  ⟨webhook_cannot_complete_first_attempt.1 emptyDb baseEvent freshInput "ref7" 10000 _ true rfl,
   webhook_cannot_complete_first_attempt.2.1 firstAttemptState sampleVerification 9 true
     (fun _ => "qr") rfl,
   webhook_cannot_complete_first_attempt.2.2 firstAttemptState sampleVerification 9
     (fun _ => "qr") rfl⟩

/-- C5 counterexample: the refund endpoint accepts a negative requested
amount (nothing enforces 0 < amount): refunding -5 on a completed 10000
transaction succeeds, ends in status partially_refunded with totalRefunded =
-5, and 0 < totalRefunded is false — the claimed biconditional
"partially_refunded ⇔ 0 < totalRefunded < amount" fails after this refund
operation. -/
theorem refund_negative_amount_breaks_invariant :
    (TransactionController.refundTransaction completedState (some (-5)) none "admin" 9).map
        (fun s1 => (s1.tx.status, s1.tx.totalRefunded, s1.tx.amount))
      = .ok (TxStatus.partially_refunded, -5, 10000) ∧
    ¬ ((0 : Int) < -5) := by
  exact ⟨rfl, by decide⟩

/-- C5 amended: for refund requests whose supplied amount is nonnegative (the
spec's precondition 0 < amount ≤ net; the code itself never checks the lower
bound), both refund implementations preserve the refund-accounting invariant:
totalRefunded = Σ refunds[].amount, 0 ≤ totalRefunded ≤ amount, status
refunded ⇔ totalRefunded = amount, and status partially_refunded ⇔
0 < totalRefunded < amount. -/
theorem refund_accounting (s : PurchaseState) (amount : Option Int) (reason : Option String)
    (pby : String) (now : Nat) (hinv : RefundInv s.tx)
    (hamt : ∀ a, amount = some a → 0 ≤ a) :
    (∀ s1, TransactionController.refundTransaction s amount reason pby now = .ok s1 →
      RefundInv s1.tx) ∧
    (∀ s1, TransactionService.refundTransaction s amount reason pby now = .ok s1 →
      RefundInv s1.tx) := by
  constructor
  · intro s1 h
    unfold TransactionController.refundTransaction at h
    dsimp only at h
    split at h
    · exact absurd h (by simp)
    next href =>
      generalize hra : (if numTruthy amount = true then amount.getD 0 else s.tx.netAmount)
        = ra at h
      have hr := isRefundable_spec (not_not.1 href)
      have htr0 : s.tx.totalRefunded = 0 := refundInv_completed hinv hr.1
      have h0ra : 0 < ra := by
        rw [← hra]
        cases amount with
        | none =>
          simp only [numTruthy, Bool.false_eq_true, if_false, Transaction.netAmount]
          omega
        | some a =>
          by_cases ha0 : a = 0
          · subst ha0
            simp only [numTruthy, bne_self_eq_false, Bool.false_eq_true, if_false,
              Transaction.netAmount]
            omega
          · have ha := hamt a rfl
            simp only [numTruthy, bne_iff_ne, ne_eq, ha0, not_false_eq_true,
              decide_eq_true_eq, if_pos, Option.getD_some]
            omega
      split at h
      · exact absurd h (by simp)
      next hbound =>
        simp only [Except.ok.injEq] at h
        subst h
        have hrale : ra ≤ s.tx.amount - s.tx.totalRefunded := by
          unfold Transaction.netAmount at hbound
          omega
        exact refundInv_update s.tx ra (jsOr reason "Admin refund") pby now hinv.1 hinv.2.1
          h0ra (by omega) _ (by rw [htr0]; norm_num)
  · intro s1 h
    unfold TransactionService.refundTransaction at h
    split at h
    · exact absurd h (by simp)
    next mr heq =>
      dsimp only at h
      obtain ⟨hstat, hnet, hmr, hbound⟩ := canRefund_allowed heq
      generalize hra : (if numTruthy amount = true then amount.getD 0 else mr) = ra at h
      have h0ra : 0 < ra := by
        rw [← hra]
        cases amount with
        | none =>
          simp only [numTruthy, Bool.false_eq_true, if_false]
          omega
        | some a =>
          by_cases ha0 : a = 0
          · subst ha0
            simp only [numTruthy, bne_self_eq_false, Bool.false_eq_true, if_false]
            omega
          · have ha := hamt a rfl
            simp only [numTruthy, bne_iff_ne, ne_eq, ha0, not_false_eq_true,
              decide_eq_true_eq, if_pos, Option.getD_some]
            omega
      have hrale : ra ≤ s.tx.amount - s.tx.totalRefunded := by
        rw [← hra]
        cases amount with
        | none =>
          simp only [numTruthy, Bool.false_eq_true, if_false]
          omega
        | some a =>
          by_cases ha0 : a = 0
          · subst ha0
            simp only [numTruthy, bne_self_eq_false, Bool.false_eq_true, if_false]
            omega
          · have ha := hbound a rfl ha0
            simp only [numTruthy, bne_iff_ne, ne_eq, ha0, not_false_eq_true,
              decide_eq_true_eq, if_pos, Option.getD_some]
            omega
      split at h
      · next hfull =>
        split at h
        · exact absurd h (by simp)
        next hvalid =>
          simp only [Except.ok.injEq] at h
          subst h
          exact refundInv_update s.tx ra (jsOr reason "Refund requested") pby now hinv.1
            hinv.2.1 h0ra (by omega) _ (by rw [if_pos hfull])
      · next hpart =>
        split at h
        · exact absurd h (by simp)
        next hvalid =>
          simp only [Except.ok.injEq] at h
          subst h
          exact refundInv_update s.tx ra (jsOr reason "Refund requested") pby now hinv.1
            hinv.2.1 h0ra (by omega) _ (by rw [if_neg hpart])

theorem refund_accounting_witness : RefundInv partialRefundState.tx :=
  (refund_accounting completedState (some 3000) none "admin" 5
    (by unfold RefundInv; decide)
    (by intro a ha; simp at ha; omega)).1 partialRefundState rfl

/-- C7 counterexample: a full refund through the service leaves every ticket
of the order in status `valid` — no ticket is cancelled, although the claim
requires all tickets cancelled exactly on a full refund.  (The order is
marked refunded and the counters stay put, as claimed.) -/
theorem full_refund_leaves_tickets_uncancelled :
    (TransactionService.refundTransaction completedState none none "admin" 9).map
        (fun s1 => (s1.tx.status, s1.tx.totalRefunded, s1.order.paymentStatus,
          s1.tickets.map (fun t => t.status)))
      = .ok (TxStatus.refunded, 10000, PayStatus.refunded,
             [TicketStatus.valid, TicketStatus.valid]) := by
  rfl

/-- C7 amended: no refund ever touches ticket rows or the event (tier
soldCount, totalTicketsSold and totalRevenue are never decremented); the
service refund sets Order.paymentStatus to refunded exactly on a full refund
and leaves the order untouched otherwise, while the admin refund endpoint
never updates the order at all. -/
theorem refund_side_effects (s : PurchaseState) (amount : Option Int) (reason : Option String)
    (pby : String) (now : Nat) :
    (∀ s1, TransactionService.refundTransaction s amount reason pby now = .ok s1 →
      s1.tickets = s.tickets ∧ s1.event = s.event ∧
      (s1.tx.totalRefunded ≥ s1.tx.amount → s1.order.paymentStatus = PayStatus.refunded) ∧
      (s1.tx.totalRefunded < s1.tx.amount → s1.order = s.order)) ∧
    (∀ s1, TransactionController.refundTransaction s amount reason pby now = .ok s1 →
      s1.tickets = s.tickets ∧ s1.event = s.event ∧ s1.order = s.order) := by
  constructor
  · intro s1 h
    unfold TransactionService.refundTransaction at h
    split at h
    · exact absurd h (by simp)
    next mr heq =>
      dsimp only at h
      generalize hra : (if numTruthy amount = true then amount.getD 0 else mr) = ra at h
      split at h
      · next hfull =>
        split at h
        · exact absurd h (by simp)
        next hvalid =>
          simp only [Except.ok.injEq] at h
          subst h
          refine ⟨rfl, rfl, fun _ => rfl, fun hlt => ?_⟩
          dsimp only at hlt
          omega
      · next hpart =>
        split at h
        · exact absurd h (by simp)
        next hvalid =>
          simp only [Except.ok.injEq] at h
          subst h
          refine ⟨rfl, rfl, fun hge => ?_, fun _ => rfl⟩
          dsimp only at hge
          omega
  · intro s1 h
    unfold TransactionController.refundTransaction at h
    dsimp only at h
    split at h
    · exact absurd h (by simp)
    next href =>
      generalize hra : (if numTruthy amount = true then amount.getD 0 else s.tx.netAmount)
        = ra at h
      split at h
      · exact absurd h (by simp)
      next hbound =>
        simp only [Except.ok.injEq] at h
        subst h
        exact ⟨rfl, rfl, rfl⟩

theorem refund_side_effects_witness :
    refundedFullState.tickets = completedState.tickets ∧
    refundedFullState.event = completedState.event ∧
    (refundedFullState.tx.totalRefunded ≥ refundedFullState.tx.amount →
      refundedFullState.order.paymentStatus = PayStatus.refunded) ∧
    (refundedFullState.tx.totalRefunded < refundedFullState.tx.amount →
      refundedFullState.order = completedState.order) :=
  (refund_side_effects completedState none none "adm" 9).1 refundedFullState rfl

/-- C6: single-use gate scan.  Over any serialized interleaving of concurrent
scans (each a stale read followed by the atomic compare-and-set), at most one
scan ever returns VALID; a scan returns VALID exactly by the CAS on
status=valid, which sets status=used, checkedInAt=now and checkedInBy to the
scanner; once the ticket is not valid, no later scan returns VALID and the
ticket never changes; and a scan of a used ticket whose read observed a past
status (valid or used) returns ALREADY_USED carrying the stored checkedInAt,
or RACE_CONDITION when its read was stale, leaving the ticket unchanged. -/
theorem scan_single_use :
    (∀ (t0 : Ticket) (reqs : List ScanRequest),
      (runScans t0 [] reqs).1.countP ScanOutcome.isVALID ≤ 1) ∧
    (∀ (g : ScanGuards) (obs cur : Ticket) (now : Nat) (scanner : String),
      ((ValidationController.scanTicket g obs cur now scanner).1).isVALID = true →
      cur.status = .valid ∧
      (ValidationController.scanTicket g obs cur now scanner).1 = .VALID now ∧
      (ValidationController.scanTicket g obs cur now scanner).2 =
        { cur with status := TicketStatus.used, checkedInAt := some now,
                   checkedInBy := some scanner }) ∧
    (∀ (cur : Ticket) (past : List Ticket) (reqs : List ScanRequest),
      cur.status ≠ .valid →
      (runScans cur past reqs).1.countP ScanOutcome.isVALID = 0 ∧
      (runScans cur past reqs).2 = cur) ∧
    (∀ (g : ScanGuards) (obs cur : Ticket) (now : Nat) (scanner : String),
      cur.status = .used → (obs.status = .valid ∨ obs.status = .used) →
      g.tokenValid = true → g.ticketFound = true → g.eventMismatch = false →
      g.validatorNotAssigned = false →
      ((ValidationController.scanTicket g obs cur now scanner).1 =
          .ALREADY_USED obs.checkedInAt ∨
        (ValidationController.scanTicket g obs cur now scanner).1 = .RACE_CONDITION) ∧
      (ValidationController.scanTicket g obs cur now scanner).2 = cur) := by
  refine ⟨fun t0 reqs => runScans_count_le_one reqs t0 [], ?_, ?_, ?_⟩
  · intro g obs cur now scanner h
    have hs := scanTicket_valid_step g obs cur now scanner h
    refine ⟨hs.1, ?_, hs.2⟩
    unfold ValidationController.scanTicket at h ⊢
    repeat' split at h
    all_goals simp_all [ScanOutcome.isVALID]
  · intro cur past reqs h
    exact runScans_nonvalid cur h reqs past
  · intro g obs cur now scanner hcur hobs h1 h2 h3 h4
    unfold ValidationController.scanTicket
    rw [if_neg (by simp [h1]), if_neg (by simp [h2]), if_neg (by simp [h3]),
      if_neg (by simp [h4])]
    rcases hobs with hv | hu
    · rw [if_neg (by simp [hv]), if_neg (by simp [hv]), if_neg (by simp [hcur])]
      exact ⟨Or.inr rfl, rfl⟩
    · rw [if_pos hu]
      exact ⟨Or.inl rfl, rfl⟩

theorem scan_single_use_witness :
    (runScans ticket1 []
      [{ guards := allPassGuards, stale := 0, now := 3, scanner := "dev" }]).1.countP
        ScanOutcome.isVALID ≤ 1 ∧
    (ticket1.status = .valid ∧
      (ValidationController.scanTicket allPassGuards ticket1 ticket1 3 "dev").1 = .VALID 3 ∧
      (ValidationController.scanTicket allPassGuards ticket1 ticket1 3 "dev").2 =
        { ticket1 with status := TicketStatus.used, checkedInAt := some 3,
                       checkedInBy := some "dev" }) ∧
    ((runScans usedTicket []
        [{ guards := allPassGuards, stale := 0, now := 4, scanner := "dev2" }]).1.countP
          ScanOutcome.isVALID = 0 ∧
      (runScans usedTicket []
        [{ guards := allPassGuards, stale := 0, now := 4, scanner := "dev2" }]).2 =
        usedTicket) ∧
    (((ValidationController.scanTicket allPassGuards ticket1 usedTicket 5 "dev3").1 =
        .ALREADY_USED ticket1.checkedInAt ∨
      (ValidationController.scanTicket allPassGuards ticket1 usedTicket 5 "dev3").1 =
        .RACE_CONDITION) ∧
      (ValidationController.scanTicket allPassGuards ticket1 usedTicket 5 "dev3").2 =
        usedTicket) :=
  ⟨scan_single_use.1 ticket1
     [{ guards := allPassGuards, stale := 0, now := 3, scanner := "dev" }],
   scan_single_use.2.1 allPassGuards ticket1 ticket1 3 "dev" rfl,
   scan_single_use.2.2.1 usedTicket []
     [{ guards := allPassGuards, stale := 0, now := 4, scanner := "dev2" }] (by decide),
   scan_single_use.2.2.2 allPassGuards ticket1 usedTicket 5 "dev3" rfl (Or.inl rfl)
     rfl rfl rfl rfl⟩

/-- C8: ticket-token round trip.  For every HMAC function, secret, ticket id,
event id and issue time whose id strings and 16-character signature are in
the ASCII/no-quote/no-backslash domain (hex ObjectIds and hex digests are),
verifying a generated token yields valid with the same tid, eid and iat; a
token that fails base64url decoding or does not parse as the token object is
Malformed (valid=false, no exception — the function is total); and a parsed
token whose sig differs from the recomputed first-16-hex HMAC over the
canonical payload JSON is rejected as an invalid signature.  Verification
uses no database state. -/
theorem token_roundtrip :
    (∀ (hmacSha256Hex : String → String → String) (secretKey tid eid : String) (iat : Nat),
      tokenSafe tid = true → tokenSafe eid = true →
      tokenSafe ((hmacSha256Hex secretKey (jsonPayloadString tid eid iat)).take 16) = true →
      QRService.verifyTicketToken hmacSha256Hex secretKey
        (QRService.generateTicketToken hmacSha256Hex secretKey tid eid iat) =
        .ok tid eid iat) ∧
    (∀ (hmacSha256Hex : String → String → String) (secretKey token : String),
      base64urlDecodeList token.data = none →
      QRService.verifyTicketToken hmacSha256Hex secretKey token = .err "Malformed token") ∧
    (∀ (hmacSha256Hex : String → String → String) (secretKey token : String)
        (bytes : List Nat),
      base64urlDecodeList token.data = some bytes →
      parseTokenJson (bytes.map Char.ofNat) = none →
      QRService.verifyTicketToken hmacSha256Hex secretKey token = .err "Malformed token") ∧
    (∀ (hmacSha256Hex : String → String → String) (secretKey token : String)
        (bytes : List Nat) (tid eid : String) (iat : Nat) (sig : String),
      base64urlDecodeList token.data = some bytes →
      parseTokenJson (bytes.map Char.ofNat) = some (tid, eid, iat, sig) →
      sig ≠ (hmacSha256Hex secretKey (jsonPayloadString tid eid iat)).take 16 →
      QRService.verifyTicketToken hmacSha256Hex secretKey token =
        .err "Invalid signature - potential fake ticket") := by
  refine ⟨?_, ?_, ?_, ?_⟩
  · intro hmacSha256Hex secretKey tid eid iat htid heid hsig
    unfold QRService.generateTicketToken QRService.verifyTicketToken
    dsimp only
    have hchars := jsonTokenString_chars tid eid
      ((hmacSha256Hex secretKey (jsonPayloadString tid eid iat)).take 16) iat htid heid hsig
    have hbytes : ∀ b ∈ strBytes (jsonTokenString tid eid iat
        ((hmacSha256Hex secretKey (jsonPayloadString tid eid iat)).take 16)), b < 256 := by
      intro b hb
      unfold strBytes at hb
      rcases List.mem_map.1 hb with ⟨c, hc, rfl⟩
      have := hchars c hc
      omega
    rw [base64url_roundtrip _ hbytes]
    dsimp only
    unfold strBytes
    rw [map_ofNat_toNat]
    rw [parseTokenJson_roundtrip tid eid
      ((hmacSha256Hex secretKey (jsonPayloadString tid eid iat)).take 16) iat htid heid hsig]
    simp
  · intro hmacSha256Hex secretKey token h
    unfold QRService.verifyTicketToken
    rw [h]
  · intro hmacSha256Hex secretKey token bytes h1 h2
    unfold QRService.verifyTicketToken
    rw [h1]
    dsimp only
    rw [h2]
  · intro hmacSha256Hex secretKey token bytes tid eid iat sig h1 h2 hne
    unfold QRService.verifyTicketToken
    rw [h1]
    dsimp only
    rw [h2]
    dsimp only
    rw [if_neg hne]

theorem token_roundtrip_witness :
    QRService.verifyTicketToken hmacConst "sk"
      (QRService.generateTicketToken hmacConst "sk" "65a1b2" "evt7" 42) =
      .ok "65a1b2" "evt7" 42 ∧
    QRService.verifyTicketToken hmacConst "sk" "*" = .err "Malformed token" ∧
    QRService.verifyTicketToken hmacConst "sk" "AAAA" = .err "Malformed token" ∧
    QRService.verifyTicketToken hmacConst "sk"
      (String.mk (base64urlEncodeList (strBytes (jsonTokenString "a" "b" 1 "z")))) =
      .err "Invalid signature - potential fake ticket" :=
  ⟨token_roundtrip.1 hmacConst "sk" "65a1b2" "evt7" 42 (by decide) (by decide) (by decide),
   token_roundtrip.2.1 hmacConst "sk" "*" rfl,
   token_roundtrip.2.2.1 hmacConst "sk" "AAAA" [0, 0, 0] rfl rfl,
   token_roundtrip.2.2.2 hmacConst "sk"
     (String.mk (base64urlEncodeList (strBytes (jsonTokenString "a" "b" 1 "z"))))
     (strBytes (jsonTokenString "a" "b" 1 "z")) "a" "b" 1 "z"
     (base64url_roundtrip (strBytes (jsonTokenString "a" "b" 1 "z")) (by decide))
     (by
       unfold strBytes
       rw [map_ofNat_toNat]
       exact parseTokenJson_roundtrip "a" "b" "z" 1 (by decide) (by decide) (by decide))
     (by decide)⟩

end TicketSystem
